import Mathlib

/-
  Verification of the checkout/reservation core of the marketplace app
  (src/app.py).  The data model and operations below are shallow
  embeddings of the Python source: listings are rows of the `listings`
  table, the session cart is a list of ids, and `pay` follows the body
  of the POST /pay handler statement by statement.  A separate
  interleaving model at the end embeds the row-locking discipline of
  `SELECT ... FOR UPDATE` for the concurrency claim.
-/

namespace Marketplace

/-- Listing status column: the source stores the strings ACTIVE / SOLD. -/
inductive Status
  | ACTIVE
  | SOLD
deriving DecidableEq, Repr

/-- A row of the `listings` table (src/app.py init_db). -/
structure Listing where
  user_id : Nat
  title : String
  make : String
  model : String
  year : Int
  mileage : Int
  price_cents : Int
  currency : String
  location : String
  description : String
  status : Status
  created_at : String
  updated_at : String
deriving DecidableEq, Repr

/-- A row of the `purchases` table. -/
structure Purchase where
  created_at : String
  total_amount_cents : Int
  payment_ref : String
deriving DecidableEq, Repr

/-- A row of the `purchase_items` table. -/
structure PurchaseItem where
  purchase_id : Nat
  listing_id : Nat
  price_cents : Int
deriving DecidableEq, Repr

/-- The durable store: the three tables the checkout core touches,
plus the auto-increment counter for purchase ids. -/
structure DB where
  listings : List (Nat × Listing)
  next_purchase_id : Nat
  purchases : List (Nat × Purchase)
  purchase_items : List PurchaseItem
deriving DecidableEq, Repr

/-- `SELECT ... FROM listings WHERE id = i` as an association-list lookup. -/
def lookupListing : List (Nat × Listing) → Nat → Option Listing
  | [], _ => none
  | p :: t, i => if p.1 = i then some p.2 else lookupListing t i

/-- cart_add (src/app.py lines 586-590): append the id only when absent. -/
def cart_add (cart : List Nat) (listing_id : Nat) : List Nat :=
  if listing_id ∈ cart then cart else cart ++ [listing_id]

/-- load_cart_items (src/app.py lines 597-606): fetch the rows for the
given ids and keep, in cart order, the ids present in the table.  The
Python code keeps only four columns of each row; we keep the whole row,
which carries the same information. -/
def load_cart_items (L : List (Nat × Listing)) (ids : List Nat) : List (Nat × Listing) :=
  ids.filterMap (fun i => (lookupListing L i).map (fun l => (i, l)))

/-- The codepoint ranges on which Python's `str.isdigit` is true: the
characters with Unicode property Numeric_Type=Decimal or
Numeric_Type=Digit, per the Unicode 14.0.0 database of CPython 3.11
(ASCII 0-9 first, then superscripts and subscripts, decimal digits of
the other scripts, circled and parenthesized digits, and so on). -/
def pythonDigitRanges : List (Nat × Nat) :=
  [(0x30, 0x39), (0xB2, 0xB3), (0xB9, 0xB9), (0x660, 0x669),
   (0x6F0, 0x6F9), (0x7C0, 0x7C9), (0x966, 0x96F), (0x9E6, 0x9EF),
   (0xA66, 0xA6F), (0xAE6, 0xAEF), (0xB66, 0xB6F), (0xBE6, 0xBEF),
   (0xC66, 0xC6F), (0xCE6, 0xCEF), (0xD66, 0xD6F), (0xDE6, 0xDEF),
   (0xE50, 0xE59), (0xED0, 0xED9), (0xF20, 0xF29), (0x1040, 0x1049),
   (0x1090, 0x1099), (0x1369, 0x1371), (0x17E0, 0x17E9), (0x1810, 0x1819),
   (0x1946, 0x194F), (0x19D0, 0x19DA), (0x1A80, 0x1A89), (0x1A90, 0x1A99),
   (0x1B50, 0x1B59), (0x1BB0, 0x1BB9), (0x1C40, 0x1C49), (0x1C50, 0x1C59),
   (0x2070, 0x2070), (0x2074, 0x2079), (0x2080, 0x2089), (0x2460, 0x2468),
   (0x2474, 0x247C), (0x2488, 0x2490), (0x24EA, 0x24EA), (0x24F5, 0x24FD),
   (0x24FF, 0x24FF), (0x2776, 0x277E), (0x2780, 0x2788), (0x278A, 0x2792),
   (0xA620, 0xA629), (0xA8D0, 0xA8D9), (0xA900, 0xA909), (0xA9D0, 0xA9D9),
   (0xA9F0, 0xA9F9), (0xAA50, 0xAA59), (0xABF0, 0xABF9), (0xFF10, 0xFF19),
   (0x104A0, 0x104A9), (0x10A40, 0x10A43), (0x10D30, 0x10D39),
   (0x10E60, 0x10E68), (0x11052, 0x1105A), (0x11066, 0x1106F),
   (0x110F0, 0x110F9), (0x11136, 0x1113F), (0x111D0, 0x111D9),
   (0x112F0, 0x112F9), (0x11450, 0x11459), (0x114D0, 0x114D9),
   (0x11650, 0x11659), (0x116C0, 0x116C9), (0x11730, 0x11739),
   (0x118E0, 0x118E9), (0x11950, 0x11959), (0x11C50, 0x11C59),
   (0x11D50, 0x11D59), (0x11DA0, 0x11DA9), (0x16A60, 0x16A69),
   (0x16AC0, 0x16AC9), (0x16B50, 0x16B59), (0x1D7CE, 0x1D7FF),
   (0x1E140, 0x1E149), (0x1E2F0, 0x1E2F9), (0x1E950, 0x1E959),
   (0x1F100, 0x1F10A), (0x1FBF0, 0x1FBF9)]

/-- Python's `ch.isdigit()`: true exactly on the Unicode
Numeric_Type=Decimal or Numeric_Type=Digit characters, so beyond
ASCII 0-9 it also accepts superscripts such as the squared sign,
decimal digits of other scripts, circled digits, and so on. -/
def pyIsDigit (c : Char) : Bool :=
  pythonDigitRanges.any (fun r => r.1 ≤ c.toNat && c.toNat ≤ r.2)

/-- The digit characters of the card number, as extracted by
dummy_charge via `ch.isdigit()` (Python's Unicode-aware digit test,
not just ASCII 0-9). -/
def digitsOf (s : String) : String :=
  String.mk (s.toList.filter pyIsDigit)

/-- dummy_charge (src/app.py lines 609-617).  The random uuid hex part
of the reference is passed in as `hex`; everything else follows the
source, including the order of the three checks. -/
def dummy_charge (dummy_enabled : Bool) (card_number exp_mm exp_yy cvc : String)
    (hex : String) : Except String String :=
  if ¬ dummy_enabled then
    Except.error "Dummy payments disabled"
  else if digitsOf card_number ≠ "4242424242424242" then
    Except.error "Card declined (dummy gateway)"
  else if exp_mm = "" ∨ exp_yy = "" ∨ cvc = "" then
    Except.error "Missing card details"
  else
    Except.ok ("DUMMY-" ++ hex)

/-- The outcomes the POST /pay handler can produce. -/
inductive PayResult
  | notFound
  | cartEmpty
  | itemUnavailable
  | chargeError (msg : String)
  | success (purchase_id : Nat)
deriving DecidableEq, Repr

/-- Database statements issued by the handler, in program order; used
to state the claim that payment authorization precedes every durable
mutation. -/
inductive Event
  | beginTxn
  | lockRead (ids : List Nat)
  | charge (ok : Bool)
  | insertPurchase (purchase_id : Nat)
  | insertPurchaseItem (listing_id : Nat)
  | updateSold (ids : List Nat)
  | commit
  | rollback
deriving DecidableEq, Repr

/-- Events that durably mutate the store. -/
def isMutation : Event → Bool
  | Event.insertPurchase _ => true
  | Event.insertPurchaseItem _ => true
  | Event.updateSold _ => true
  | _ => false

/-- What a run of the handler yields: the response, the state after,
and the trace of database statements. -/
structure PayOutcome where
  result : PayResult
  db : DB
  cart : List Nat
  trace : List Event
deriving DecidableEq, Repr

/-- Price of listing `i` as read by the FOR UPDATE query (`by_id[i]["price_cents"]`);
only evaluated on ids validated to be present. -/
def priceAt (L : List (Nat × Listing)) (i : Nat) : Int :=
  ((lookupListing L i).map (fun l => l.price_cents)).getD 0

/-- `UPDATE listings SET status = SOLD, updated_at = now WHERE id IN ids`. -/
def mark_sold_all (L : List (Nat × Listing)) (ids : List Nat) (now : String) :
    List (Nat × Listing) :=
  L.map (fun p =>
    if p.1 ∈ ids then (p.1, { p.2 with status := Status.SOLD, updated_at := now }) else p)

/-- The availability re-check done under lock
(`any((i not in by_id) or (by_id[i]["status"] != "ACTIVE") for i in ids)`). -/
def someUnavailable (L : List (Nat × Listing)) (ids : List Nat) : Bool :=
  ids.any (fun i =>
    match lookupListing L i with
    | none => true
    | some l => decide (l.status ≠ Status.ACTIVE))

/-- The POST /pay handler (src/app.py lines 671-734), statement by
statement.  Flags and the random uuid hex are inputs already resolved;
`now` is the timestamp `utc_now_iso()` returns.  Rollback is embedded
by returning the entry state unchanged, commit by returning the
mutated state; the cart is cleared only on the success path, after the
commit, exactly as in the source. -/
def pay (cart_enabled checkout_enabled dummy_enabled : Bool)
    (card_number exp_mm exp_yy cvc hex now : String)
    (db : DB) (cart : List Nat) : PayOutcome :=
  if ¬ (cart_enabled ∧ checkout_enabled) then
    { result := PayResult.notFound, db := db, cart := cart, trace := [] }
  else if (load_cart_items db.listings cart).isEmpty then
    { result := PayResult.cartEmpty, db := db, cart := cart, trace := [] }
  else if someUnavailable db.listings cart then
    { result := PayResult.itemUnavailable, db := db, cart := cart,
      trace := [Event.beginTxn, Event.lockRead cart, Event.rollback] }
  else
    match dummy_charge dummy_enabled card_number exp_mm exp_yy cvc hex with
    | Except.error e =>
        { result := PayResult.chargeError e, db := db, cart := cart,
          trace := [Event.beginTxn, Event.lockRead cart, Event.charge false,
                    Event.rollback] }
    | Except.ok payment_ref =>
        { result := PayResult.success db.next_purchase_id,
          db :=
            { listings := mark_sold_all db.listings cart now,
              next_purchase_id := db.next_purchase_id + 1,
              purchases := db.purchases ++
                [(db.next_purchase_id,
                  { created_at := now,
                    total_amount_cents :=
                      (cart.map (fun i => priceAt db.listings i)).sum,
                    payment_ref := payment_ref })],
              purchase_items := db.purchase_items ++
                cart.map (fun i =>
                  { purchase_id := db.next_purchase_id, listing_id := i,
                    price_cents := priceAt db.listings i }) },
          cart := [],
          trace := Event.beginTxn :: Event.lockRead cart :: Event.charge true ::
            Event.insertPurchase db.next_purchase_id ::
            (cart.map Event.insertPurchaseItem ++
              [Event.updateSold cart, Event.commit]) }

/-- The outcomes the GET /checkout handler can produce. -/
inductive CheckoutResult
  | notFound
  | emptyRedirect
  | soldRedirect
  | page (total_cents : Int)
deriving DecidableEq, Repr

/-- The GET /checkout handler (src/app.py lines 653-668).  A read-only
route: it returns the response together with the unchanged store and
cart, making explicit that no branch mutates state. -/
def checkout (cart_enabled checkout_enabled : Bool) (db : DB) (cart : List Nat) :
    CheckoutResult × DB × List Nat :=
  if ¬ (cart_enabled ∧ checkout_enabled) then
    (CheckoutResult.notFound, db, cart)
  else
    let items := load_cart_items db.listings cart
    if items.isEmpty then
      (CheckoutResult.emptyRedirect, db, cart)
    else if items.any (fun p => decide (p.2.status ≠ Status.ACTIVE)) then
      (CheckoutResult.soldRedirect, db, cart)
    else
      (CheckoutResult.page ((items.map (fun p => p.2.price_cents)).sum), db, cart)

/-- The POST /listings/id/edit handler (src/app.py lines 505-545),
reduced to its effect on the listing row it owns.  `price_parse` is
the result of parse_price_to_cents on the submitted price (none when
parsing raised).  When any validation fails the handler redirects
without issuing the UPDATE; otherwise it updates title, price,
location, description and updated_at.  The row's status is never
consulted or changed. -/
def edit_listing_post (l : Listing) (title location description : String)
    (price_parse : Option Int) (now : String) : Listing :=
  if title.length < 5 ∨ location.length < 2 ∨ description.length < 20 ∨
      price_parse.isNone then
    l
  else
    { l with
      title := title,
      price_cents := price_parse.getD l.price_cents,
      location := location,
      description := description,
      updated_at := now }

/-- The POST /listings/id/mark-sold handler (src/app.py lines 548-563),
reduced to its effect on the owned listing row: an already-SOLD row is
left untouched (early return), otherwise status becomes SOLD and
updated_at is refreshed. -/
def mark_sold_single (l : Listing) (now : String) : Listing :=
  if l.status = Status.SOLD then l
  else { l with status := Status.SOLD, updated_at := now }

/-- Listing `i` exists and is ACTIVE in the listings table. -/
def ActiveListing (L : List (Nat × Listing)) (i : Nat) : Prop :=
  ∃ l, lookupListing L i = some l ∧ l.status = Status.ACTIVE

/-- A concrete ACTIVE listing row used to evaluate the handlers on
explicit inputs. -/
def demoListing : Listing :=
  { user_id := 1, title := "Solid red sedan", make := "Toyota", model := "Corolla",
    year := 2010, mileage := 90000, price_cents := 100, currency := "USD",
    location := "Berlin", description := "A well maintained car with full history.",
    status := Status.ACTIVE, created_at := "t0", updated_at := "t0" }

/-- The same listing already sold. -/
def soldListing : Listing :=
  { demoListing with status := Status.SOLD }

/-- A second concrete ACTIVE listing with a different price. -/
def demoListing2 : Listing :=
  { demoListing with
    title := "Black estate wagon",
    model := "Passat",
    price_cents := 250 }

/-! ## Interleaving model of concurrent purchase attempts

The POST /pay handler runs inside a database transaction and takes
row-level exclusive locks with `SELECT ... FOR UPDATE` (src/app.py
lines 689-696).  The model below embeds that discipline: a transaction
acquires the locks on its whole id set in one step (the single FOR
UPDATE statement; a competing transaction blocks until the holder
commits or rolls back), validates under lock, and releases the locks
when it finishes.  Steps that do not touch rows another transaction
can observe (the in-memory total, the uncommitted inserts) are folded
into the commit step, since MySQL makes them visible only at commit.
A transaction whose validation fails rolls back at once, so it is
never observed holding the locks.  Payment authorization succeeds or
fails per caller (`okPayment`, the outcome dummy_charge would have for
the caller's card); a failure raises, and the handler rolls back
without mutating anything. -/

/-- Result of one purchase attempt in the concurrent model. -/
inductive CResult
  | success
  | itemUnavailable
  | paymentDeclined
deriving DecidableEq, Repr

/-- Where a purchase attempt stands: not yet at the FOR UPDATE
statement, holding the row locks with the snapshot it read, or
finished with a result. -/
inductive Phase
  | pending
  | holding (snapshot : List (Nat × Int))
  | finished (r : CResult)
deriving DecidableEq, Repr

/-- One in-flight purchase attempt: its cart ids, whether the dummy
gateway accepts its card, and its current phase. -/
structure Txn where
  ids : List Nat
  okPayment : Bool
  phase : Phase
deriving DecidableEq, Repr

/-- The columns of a listing row the checkout transaction reads. -/
structure Row where
  status : Status
  price_cents : Int
deriving DecidableEq, Repr

/-- Global state: the listings table and all purchase attempts. -/
structure CState where
  listings : List (Nat × Row)
  txns : List Txn
deriving DecidableEq, Repr

/-- Row lookup in the concurrent model. -/
def lookupRow : List (Nat × Row) → Nat → Option Row
  | [], _ => none
  | p :: t, i => if p.1 = i then some p.2 else lookupRow t i

/-- Listing `i` exists and is ACTIVE. -/
def ActiveRow (L : List (Nat × Row)) (i : Nat) : Prop :=
  ∃ r, lookupRow L i = some r ∧ r.status = Status.ACTIVE

instance (L : List (Nat × Row)) (i : Nat) : Decidable (ActiveRow L i) := by
  unfold ActiveRow
  exact inferInstance

/-- Does transaction `t` currently hold the exclusive lock on row `i`?
FOR UPDATE locks exactly the requested rows and holds them until
commit or rollback. -/
def holdsLock (t : Txn) (i : Nat) : Bool :=
  match t.phase with
  | Phase.holding _ => t.ids.contains i
  | _ => false

/-- The FOR UPDATE statement of a transaction wanting `ids` can
proceed only when no other transaction holds any of those rows. -/
def locksFree (txns : List Txn) (ids : List Nat) : Bool :=
  txns.all (fun t => ids.all (fun i => ! holdsLock t i))

/-- The validation under lock, as in the handler: every requested id
must be present and ACTIVE. -/
def validateIds (L : List (Nat × Row)) (ids : List Nat) : Bool :=
  ids.all (fun i => decide (ActiveRow L i))

/-- The prices read under lock for the requested ids. -/
def snapshotOf (L : List (Nat × Row)) (ids : List Nat) : List (Nat × Int) :=
  ids.filterMap (fun i => (lookupRow L i).map (fun r => (i, r.price_cents)))

/-- `UPDATE listings SET status = SOLD WHERE id IN ids` on the slim rows. -/
def markSoldRows (L : List (Nat × Row)) (ids : List Nat) : List (Nat × Row) :=
  L.map (fun p => if p.1 ∈ ids then (p.1, { p.2 with status := Status.SOLD }) else p)

/-- Replace the phase of the transaction at position `t`. -/
def setPhase (txns : List Txn) (t : Nat) (ph : Phase) : List Txn :=
  match txns.get? t with
  | none => txns
  | some tx => txns.set t { tx with phase := ph }

/-- One atomic step of the interleaved system.  Any pending
transaction whose locks are free may run its FOR UPDATE; validation
failure rolls back at once (ItemUnavailable), success leaves it
holding the locks with its snapshot.  A holder whose payment is
declined rolls back, mutating nothing.  A holder whose payment is
accepted commits: its rows become SOLD and it succeeds. -/
inductive CStep : CState → CState → Prop
  | acquire_fail (s : CState) (t : Nat) (tx : Txn)
      (htx : s.txns.get? t = some tx)
      (hp : tx.phase = Phase.pending)
      (hfree : locksFree s.txns tx.ids = true)
      (hval : validateIds s.listings tx.ids = false) :
      CStep s { s with txns := setPhase s.txns t (Phase.finished CResult.itemUnavailable) }
  | acquire_ok (s : CState) (t : Nat) (tx : Txn)
      (htx : s.txns.get? t = some tx)
      (hp : tx.phase = Phase.pending)
      (hfree : locksFree s.txns tx.ids = true)
      (hval : validateIds s.listings tx.ids = true) :
      CStep s { s with txns := setPhase s.txns t (Phase.holding (snapshotOf s.listings tx.ids)) }
  | decline (s : CState) (t : Nat) (tx : Txn) (snap : List (Nat × Int))
      (htx : s.txns.get? t = some tx)
      (hp : tx.phase = Phase.holding snap)
      (hok : tx.okPayment = false) :
      CStep s { s with txns := setPhase s.txns t (Phase.finished CResult.paymentDeclined) }
  | commit (s : CState) (t : Nat) (tx : Txn) (snap : List (Nat × Int))
      (htx : s.txns.get? t = some tx)
      (hp : tx.phase = Phase.holding snap)
      (hok : tx.okPayment = true) :
      CStep s { listings := markSoldRows s.listings tx.ids,
                txns := setPhase s.txns t (Phase.finished CResult.success) }

/-- Reachability under arbitrarily many interleaved steps. -/
def Reaches : CState → CState → Prop :=
  Relation.ReflTransGen CStep

/-- An initial state: every purchase attempt still ahead of its
transaction. -/
def AllPending (s : CState) : Prop :=
  ∀ t ∈ s.txns, t.phase = Phase.pending

/-- Transaction counts as a completed sale of listing `i`. -/
def countsSold (i : Nat) (t : Txn) : Bool :=
  decide (t.phase = Phase.finished CResult.success) && t.ids.contains i

/-- How many finished attempts successfully bought listing `i`. -/
def soldCount (txns : List Txn) (i : Nat) : Nat :=
  txns.countP (countsSold i)

/-- The inductive invariant of the interleaved system: (1) no two
distinct transactions hold a lock on the same row, (2) a transaction
holding its locks saw all its rows ACTIVE and they still are, (3) a
row that is still ACTIVE has never been sold, (4) no row is ever sold
twice, (5) only a caller whose card the gateway rejects can finish
PaymentDeclined. -/
def Inv (s : CState) : Prop :=
  (∀ p q tp tq, p ≠ q → s.txns.get? p = some tp → s.txns.get? q = some tq →
     ∀ i, holdsLock tp i = true → holdsLock tq i = true → False) ∧
  (∀ p tp snap, s.txns.get? p = some tp → tp.phase = Phase.holding snap →
     ∀ i ∈ tp.ids, ActiveRow s.listings i) ∧
  (∀ i, ActiveRow s.listings i → soldCount s.txns i = 0) ∧
  (∀ i, soldCount s.txns i ≤ 1) ∧
  (∀ p tp, s.txns.get? p = some tp →
     tp.phase = Phase.finished CResult.paymentDeclined → tp.okPayment = false)

/-- A concrete ACTIVE row for running the interleaved model. -/
def cRowActive : Row := { status := Status.ACTIVE, price_cents := 100 }

/-- A concrete pending purchase attempt for listing 1 with an accepted
card. -/
def cTxn : Txn := { ids := [1], okPayment := true, phase := Phase.pending }

/-- The same attempt while holding the row lock with its snapshot. -/
def cHolding : Txn :=
  { ids := [1], okPayment := true, phase := Phase.holding [(1, 100)] }

/-- The attempt that bought listing 1. -/
def cWinner : Txn :=
  { ids := [1], okPayment := true, phase := Phase.finished CResult.success }

/-- The attempt that found listing 1 already sold. -/
def cLoser : Txn :=
  { ids := [1], okPayment := true, phase := Phase.finished CResult.itemUnavailable }

/-- Two buyers racing for the same single listing. -/
def cInitState : CState := { listings := [(1, cRowActive)], txns := [cTxn, cTxn] }

/-- After the first buyer's FOR UPDATE succeeded. -/
def cState1 : CState :=
  { listings := [(1, cRowActive)], txns := [cHolding, cTxn] }

/-- After the first buyer committed. -/
def cState2 : CState :=
  { listings := [(1, { status := Status.SOLD, price_cents := 100 })],
    txns := [cWinner, cTxn] }

/-- After the second buyer's validation under lock failed. -/
def cState3 : CState :=
  { listings := [(1, { status := Status.SOLD, price_cents := 100 })],
    txns := [cWinner, cLoser] }

/-! ## Theorems -/

/-- C8: cart_add is idempotent: adding a present id leaves the cart
unchanged (hence the position of the existing entry is untouched),
adding a fresh id appends it at the end, and membership is the union
with the new id. -/
theorem cart_add_idempotent (cart : List Nat) (i : Nat) :
    (i ∈ cart → cart_add cart i = cart) ∧
    (i ∉ cart → cart_add cart i = cart ++ [i]) ∧
    (∀ x, x ∈ cart_add cart i ↔ x ∈ cart ∨ x = i) := by
  refine ⟨fun h => by simp [cart_add, h], fun h => by simp [cart_add, h], fun x => ?_⟩
  by_cases h : i ∈ cart
  · simp only [cart_add, if_pos h]
    constructor
    · exact fun hx => Or.inl hx
    · rintro (hx | rfl)
      · exact hx
      · exact h
  · simp [cart_add, if_neg h]

/-- Witness for C8 at a concrete cart. -/
theorem cart_add_idempotent_witness :
    cart_add [3, 7] 3 = [3, 7] ∧ cart_add [3, 7] 5 = [3, 7, 5] :=
  ⟨(cart_add_idempotent [3, 7] 3).1 (by decide),
   (cart_add_idempotent [3, 7] 5).2.1 (by decide)⟩

/-- C10: dummy_charge returns the DUMMY-prefixed reference exactly when
the dummy-payment flag is on, the digits of the card number are the
test number, and all three detail fields are non-empty; otherwise it
raises; and a wrong card number is reported as a decline even when
details are also missing, because that check comes first. -/
theorem dummy_charge_characterization (e : Bool) (cn mm yy cv hex : String) :
    (dummy_charge e cn mm yy cv hex = Except.ok ("DUMMY-" ++ hex) ↔
      (e = true ∧ digitsOf cn = "4242424242424242" ∧ mm ≠ "" ∧ yy ≠ "" ∧ cv ≠ "")) ∧
    (e = true → digitsOf cn ≠ "4242424242424242" →
      dummy_charge e cn mm yy cv hex = Except.error "Card declined (dummy gateway)") ∧
    (¬ (e = true ∧ digitsOf cn = "4242424242424242" ∧ mm ≠ "" ∧ yy ≠ "" ∧ cv ≠ "") →
      ∃ msg, dummy_charge e cn mm yy cv hex = Except.error msg) := by
  unfold dummy_charge
  split_ifs with h1 h2 h3
  · exact ⟨⟨fun h => absurd h (by simp), fun hc => absurd hc.2.1 h2⟩,
      fun _ _ => rfl, fun _ => ⟨_, rfl⟩⟩
  · refine ⟨⟨fun h => absurd h (by simp), fun hc => ?_⟩,
      fun _ hcn => absurd (not_not.mp h2) hcn, fun _ => ⟨_, rfl⟩⟩
    rcases h3 with h | h | h
    · exact absurd h hc.2.2.1
    · exact absurd h hc.2.2.2.1
    · exact absurd h hc.2.2.2.2
  · push_neg at h3
    refine ⟨⟨fun _ => ⟨h1, not_not.mp h2, h3.1, h3.2.1, h3.2.2⟩,
      fun _ => rfl⟩,
      fun _ hcn => absurd (not_not.mp h2) hcn,
      fun hc => absurd ⟨h1, not_not.mp h2, h3.1, h3.2.1, h3.2.2⟩ hc⟩
  · exact ⟨⟨fun h => absurd h (by simp), fun hc => absurd hc.1 h1⟩,
      fun he _ => absurd he h1, fun _ => ⟨_, rfl⟩⟩

/-- Witness for C10 at concrete inputs: the test number with spaces is
accepted, a wrong number with missing details is declined, and a card
number carrying a superscript-two — a Unicode character Python's
isdigit accepts — yields digits different from the test number and is
declined. -/
theorem dummy_charge_characterization_witness :
    dummy_charge true "4242 4242 4242 4242" "12" "30" "123" "abcdef123456" =
      Except.ok ("DUMMY-" ++ "abcdef123456") ∧
    dummy_charge true "1111" "" "" "" "abcdef123456" =
      Except.error "Card declined (dummy gateway)" ∧
    dummy_charge true "4242424242424242²" "12" "30" "123" "abcdef123456" =
      Except.error "Card declined (dummy gateway)" :=
  ⟨(dummy_charge_characterization true "4242 4242 4242 4242" "12" "30" "123"
      "abcdef123456").1.mpr (by refine ⟨rfl, by decide, by decide, by decide, by decide⟩),
   (dummy_charge_characterization true "1111" "" "" "" "abcdef123456").2.1 rfl
      (by decide),
   (dummy_charge_characterization true "4242424242424242²" "12" "30" "123"
      "abcdef123456").2.1 rfl (by decide)⟩

/-- C9: with either capability flag off, GET /checkout and POST /pay
answer not-found and leave the store and the session cart untouched. -/
theorem flag_gate_not_found (ce ke de : Bool) (cn mm yy cv hex now : String)
    (db : DB) (cart : List Nat) (h : ce = false ∨ ke = false) :
    checkout ce ke db cart = (CheckoutResult.notFound, db, cart) ∧
    (pay ce ke de cn mm yy cv hex now db cart).result = PayResult.notFound ∧
    (pay ce ke de cn mm yy cv hex now db cart).db = db ∧
    (pay ce ke de cn mm yy cv hex now db cart).cart = cart := by
  have hne : ¬ ((ce = true) ∧ (ke = true)) := by
    rcases h with h | h <;> simp [h]
  refine ⟨?_, ?_, ?_, ?_⟩ <;> simp [checkout, pay, hne]

/-- Witness for C9 with the checkout flag off. -/
theorem flag_gate_not_found_witness :
    (pay true false true "4242424242424242" "12" "30" "123" "x" "t"
      { listings := [], next_purchase_id := 1, purchases := [], purchase_items := [] }
      [1]).result = PayResult.notFound :=
  (flag_gate_not_found true false true "4242424242424242" "12" "30" "123" "x" "t"
    { listings := [], next_purchase_id := 1, purchases := [], purchase_items := [] }
    [1] (Or.inr rfl)).2.1

/-- C2: any outcome of the pay handler other than success leaves the
whole store and the session cart exactly as they were: listing
statuses, purchases and purchase items are untouched. -/
theorem pay_failure_leaves_state (ce ke de : Bool) (cn mm yy cv hex now : String)
    (db : DB) (cart : List Nat)
    (h : ∀ pid, (pay ce ke de cn mm yy cv hex now db cart).result ≠ PayResult.success pid) :
    (pay ce ke de cn mm yy cv hex now db cart).db = db ∧
    (pay ce ke de cn mm yy cv hex now db cart).cart = cart := by
  unfold pay at h ⊢
  split_ifs at h ⊢ with h1 h2 h3
  · exact ⟨rfl, rfl⟩
  · exact ⟨rfl, rfl⟩
  · cases hch : dummy_charge de cn mm yy cv hex with
    | error e => simp [hch]
    | ok r =>
        exfalso
        exact h db.next_purchase_id (by simp [hch])
  · exact ⟨rfl, rfl⟩

/-- Witness for C2: a declined card leaves the store unchanged. -/
theorem pay_failure_leaves_state_witness :
    (pay true true true "1111" "12" "30" "123" "x" "t"
      { listings := [(1, demoListing)], next_purchase_id := 1, purchases := [],
        purchase_items := [] } [1]).db =
      { listings := [(1, demoListing)], next_purchase_id := 1, purchases := [],
        purchase_items := [] } := by
  have h : ∀ pid,
      (pay true true true "1111" "12" "30" "123" "x" "t"
        { listings := [(1, demoListing)], next_purchase_id := 1, purchases := [],
          purchase_items := [] } [1]).result ≠ PayResult.success pid := by
    intro pid hc
    have he : (pay true true true "1111" "12" "30" "123" "x" "t"
        { listings := [(1, demoListing)], next_purchase_id := 1, purchases := [],
          purchase_items := [] } [1]).result =
        PayResult.chargeError "Card declined (dummy gateway)" := by decide
    rw [he] at hc
    cases hc
  exact (pay_failure_leaves_state true true true "1111" "12" "30" "123" "x" "t"
    { listings := [(1, demoListing)], next_purchase_id := 1, purchases := [],
      purchase_items := [] } [1] h).1

/-- Looking a row up after the bulk SOLD update: ids in the update set
come back SOLD with the new timestamp, every other row is unchanged. -/
theorem lookupListing_mark_sold_all (L : List (Nat × Listing)) (ids : List Nat)
    (now : String) (i : Nat) :
    lookupListing (mark_sold_all L ids now) i =
      (lookupListing L i).map (fun l =>
        if i ∈ ids then { l with status := Status.SOLD, updated_at := now } else l) := by
  induction L with
  | nil => rfl
  | cons p t ih =>
    rcases p with ⟨k, l⟩
    have hcons : mark_sold_all ((k, l) :: t) ids now =
        (if k ∈ ids then (k, { l with status := Status.SOLD, updated_at := now })
          else (k, l)) :: mark_sold_all t ids now := by
      by_cases hm : k ∈ ids <;> simp [mark_sold_all, hm]
    rw [hcons]
    by_cases hm : k ∈ ids
    · rw [if_pos hm]
      by_cases hki : k = i
      · subst hki
        simp [lookupListing, hm]
      · simpa [lookupListing, hki] using ih
    · rw [if_neg hm]
      by_cases hki : k = i
      · subst hki
        simp [lookupListing, hm]
      · simpa [lookupListing, hki] using ih

/-- C5 (code evaluation at the failing input): with the same id twice
in the session cart, the handler charges the 100-cent listing twice
(total 200) and inserts two purchase_items rows, instead of treating
the duplicate as one unit. -/
theorem duplicate_id_charged_per_occurrence :
    demoListing.price_cents = 100 ∧
    ((pay true true true "4242424242424242" "12" "30" "123" "ab" "t1"
      { listings := [(1, demoListing)], next_purchase_id := 1, purchases := [],
        purchase_items := [] } [1, 1]).db.purchases.map
        (fun p => p.2.total_amount_cents)) = [200] ∧
    (pay true true true "4242424242424242" "12" "30" "123" "ab" "t1"
      { listings := [(1, demoListing)], next_purchase_id := 1, purchases := [],
        purchase_items := [] } [1, 1]).db.purchase_items.length = 2 := by
  decide

/-- C7 counterexample: the edit handler never checks the status
column, so a SOLD listing's fields are mutated by a valid edit. -/
theorem edit_mutates_sold_listing :
    soldListing.status = Status.SOLD ∧
    (edit_listing_post soldListing "Shiny blue coupe" "Hamburg"
        "Completely different description text." (some 999) "t9").title ≠
      soldListing.title ∧
    (edit_listing_post soldListing "Shiny blue coupe" "Hamburg"
        "Completely different description text." (some 999) "t9").price_cents ≠
      soldListing.price_cents := by
  decide

/-- C7 (amended): listing status only ever moves ACTIVE to SOLD and
never back — the edit handler preserves status, the seller mark-sold
handler leaves an already-SOLD row untouched and otherwise sets SOLD,
and the checkout bulk update turns statuses to SOLD only — but the
edit handler mutates the non-status fields regardless of status. -/
theorem status_transitions_one_way :
    (∀ l title loc d pr now, (edit_listing_post l title loc d pr now).status = l.status) ∧
    (∀ l now, (mark_sold_single l now).status = Status.SOLD) ∧
    (∀ l now, l.status = Status.SOLD → mark_sold_single l now = l) ∧
    (∀ L ids now i l, lookupListing L i = some l →
      ∃ l2, lookupListing (mark_sold_all L ids now) i = some l2 ∧
        (l2.status = l.status ∨ l2.status = Status.SOLD) ∧
        (l.status = Status.SOLD → l2.status = Status.SOLD)) := by
  refine ⟨fun l title loc d pr now => ?_, fun l now => ?_, fun l now h => ?_,
    fun L ids now i l hl => ?_⟩
  · unfold edit_listing_post
    split_ifs <;> rfl
  · unfold mark_sold_single
    split_ifs with h
    · exact h
    · rfl
  · simp [mark_sold_single, h]
  · rw [lookupListing_mark_sold_all, hl]
    by_cases hm : i ∈ ids
    · exact ⟨{ l with status := Status.SOLD, updated_at := now }, by simp [hm],
        Or.inr rfl, fun _ => rfl⟩
    · exact ⟨l, by simp [hm], Or.inl rfl, fun hs => hs⟩

/-- Witness for C7 (amended) at a concrete SOLD listing. -/
theorem status_transitions_one_way_witness :
    mark_sold_single soldListing "t3" = soldListing :=
  status_transitions_one_way.2.2.1 soldListing "t3" (by decide)

/-- The pre-transaction read comes back empty exactly when no cart id
names an existing row. -/
theorem load_cart_items_isEmpty_iff (L : List (Nat × Listing)) (cart : List Nat) :
    (load_cart_items L cart).isEmpty = true ↔
      ∀ i ∈ cart, lookupListing L i = none := by
  simp [load_cart_items, List.isEmpty_iff, List.filterMap_eq_nil_iff,
    Option.map_eq_none']

/-- C4 counterexample: a non-empty cart whose single id is absent from
the store is answered with the cart-is-empty message, not with
ItemUnavailable as the claim requires. -/
theorem absent_id_reported_cart_empty :
    (pay true true true "4242424242424242" "12" "30" "123" "x" "t"
      { listings := [], next_purchase_id := 1, purchases := [], purchase_items := [] }
      [1]).result = PayResult.cartEmpty ∧
    PayResult.cartEmpty ≠ PayResult.itemUnavailable := by
  decide

/-- C4 (amended): with the flags on, the handler reports CartEmpty
exactly when no id of the cart names an existing listing (in
particular when the cart is empty); when at least one id names an
existing listing and some id is absent or not ACTIVE, it reports
ItemUnavailable. -/
theorem pay_cart_empty_vs_unavailable (de : Bool) (cn mm yy cv hex now : String)
    (db : DB) (cart : List Nat) :
    ((pay true true de cn mm yy cv hex now db cart).result = PayResult.cartEmpty ↔
      ∀ i ∈ cart, lookupListing db.listings i = none) ∧
    ((∃ i ∈ cart, (lookupListing db.listings i).isSome) →
      (∃ j ∈ cart, ¬ ActiveListing db.listings j) →
      (pay true true de cn mm yy cv hex now db cart).result = PayResult.itemUnavailable) := by
  constructor
  · unfold pay
    rw [if_neg (by simp)]
    by_cases hemp : (load_cart_items db.listings cart).isEmpty = true
    · rw [if_pos hemp]
      exact iff_of_true rfl ((load_cart_items_isEmpty_iff db.listings cart).mp hemp)
    · have hno : ¬ ∀ i ∈ cart, lookupListing db.listings i = none := fun hall =>
        hemp ((load_cart_items_isEmpty_iff db.listings cart).mpr hall)
      rw [if_neg hemp]
      by_cases hun : someUnavailable db.listings cart = true
      · rw [if_pos hun]
        exact iff_of_false (by simp) hno
      · rw [if_neg hun]
        cases hch : dummy_charge de cn mm yy cv hex with
        | error e => exact iff_of_false (by simp) hno
        | ok r => exact iff_of_false (by simp) hno
  · rintro ⟨i, hi, hsome⟩ ⟨j, hj, hnact⟩
    unfold pay
    rw [if_neg (by simp)]
    have hemp : ¬ (load_cart_items db.listings cart).isEmpty = true := by
      rw [load_cart_items_isEmpty_iff]
      intro hall
      rw [hall i hi] at hsome
      cases hsome
    rw [if_neg hemp]
    have hun : someUnavailable db.listings cart = true := by
      unfold someUnavailable
      rw [List.any_eq_true]
      refine ⟨j, hj, ?_⟩
      cases hl : lookupListing db.listings j with
      | none => rfl
      | some l =>
          simp only [decide_eq_true_eq]
          intro hact
          exact hnact ⟨l, hl, hact⟩
    rw [if_pos hun]

/-- Witness for C4 (amended): one existing ACTIVE listing plus one
absent id gives ItemUnavailable. -/
theorem pay_cart_empty_vs_unavailable_witness :
    (pay true true true "4242424242424242" "12" "30" "123" "x" "t"
      { listings := [(2, demoListing)], next_purchase_id := 1, purchases := [],
        purchase_items := [] } [2, 3]).result = PayResult.itemUnavailable :=
  (pay_cart_empty_vs_unavailable true "4242424242424242" "12" "30" "123" "x" "t"
    { listings := [(2, demoListing)], next_purchase_id := 1, purchases := [],
      purchase_items := [] } [2, 3]).2
    ⟨2, by decide, by decide⟩
    ⟨3, by decide, fun ⟨l, hl, _⟩ => by simp [lookupListing] at hl⟩

/-- C3: a non-empty, duplicate-free cart of existing ACTIVE listings
paid with an accepted instrument succeeds: exactly one purchase row is
appended, its total is the sum of the prices read under lock, one
purchase_items row per cart id freezes that locked price (so the total
equals the sum of the frozen prices), every cart listing becomes SOLD,
and the session cart is cleared. -/
theorem pay_success_spec (de : Bool) (cn mm yy cv hex now pref : String)
    (db : DB) (cart : List Nat)
    (hne : cart ≠ [])
    (hnd : cart.Nodup)
    (hact : ∀ i ∈ cart, ActiveListing db.listings i)
    (hch : dummy_charge de cn mm yy cv hex = Except.ok pref) :
    (pay true true de cn mm yy cv hex now db cart).result =
        PayResult.success db.next_purchase_id ∧
    (pay true true de cn mm yy cv hex now db cart).db.purchases =
      db.purchases ++
        [(db.next_purchase_id,
          { created_at := now,
            total_amount_cents := (cart.map (fun i => priceAt db.listings i)).sum,
            payment_ref := pref })] ∧
    (pay true true de cn mm yy cv hex now db cart).db.purchase_items =
      db.purchase_items ++
        cart.map (fun i =>
          { purchase_id := db.next_purchase_id, listing_id := i,
            price_cents := priceAt db.listings i }) ∧
    ((cart.map (fun i =>
        ({ purchase_id := db.next_purchase_id, listing_id := i,
           price_cents := priceAt db.listings i } : PurchaseItem))).map
      (fun pi => pi.price_cents)).sum =
      (cart.map (fun i => priceAt db.listings i)).sum ∧
    (∀ i ∈ cart, ∃ l, lookupListing db.listings i = some l ∧
        priceAt db.listings i = l.price_cents ∧
        lookupListing (pay true true de cn mm yy cv hex now db cart).db.listings i =
          some { l with status := Status.SOLD, updated_at := now }) ∧
    (pay true true de cn mm yy cv hex now db cart).cart = [] := by
  have hemp : ¬ (load_cart_items db.listings cart).isEmpty = true := by
    rw [load_cart_items_isEmpty_iff]
    intro hall
    match cart, hne with
    | c :: rest, _ =>
        obtain ⟨l, hl, _⟩ := hact c (by simp)
        rw [hall c (by simp)] at hl
        cases hl
  have hun : ¬ someUnavailable db.listings cart = true := by
    unfold someUnavailable
    rw [List.any_eq_true]
    rintro ⟨j, hj, hpred⟩
    obtain ⟨l, hl, hst⟩ := hact j hj
    rw [hl] at hpred
    simp only [decide_eq_true_eq] at hpred
    exact hpred hst
  unfold pay
  rw [if_neg (by simp), if_neg hemp, if_neg hun, hch]
  refine ⟨rfl, rfl, rfl, by rw [List.map_map]; rfl, fun i hi => ?_, rfl⟩
  obtain ⟨l, hl, _⟩ := hact i hi
  refine ⟨l, hl, by simp [priceAt, hl], ?_⟩
  rw [lookupListing_mark_sold_all, hl]
  simp [hi]

/-- Witness for C3: two ACTIVE listings priced 100 and 250 cents are
bought together; the recorded total is 350 and both rows end SOLD. -/
theorem pay_success_spec_witness :
    (pay true true true "4242424242424242" "12" "30" "123" "ab12" "t5"
      { listings := [(1, demoListing), (2, demoListing2)], next_purchase_id := 7,
        purchases := [], purchase_items := [] } [1, 2]).result =
      PayResult.success 7 ∧
    (pay true true true "4242424242424242" "12" "30" "123" "ab12" "t5"
      { listings := [(1, demoListing), (2, demoListing2)], next_purchase_id := 7,
        purchases := [], purchase_items := [] } [1, 2]).db.purchases =
      [(7, { created_at := "t5", total_amount_cents := 350,
             payment_ref := "DUMMY-ab12" })] ∧
    (pay true true true "4242424242424242" "12" "30" "123" "ab12" "t5"
      { listings := [(1, demoListing), (2, demoListing2)], next_purchase_id := 7,
        purchases := [], purchase_items := [] } [1, 2]).cart = [] := by
  have h := pay_success_spec true "4242424242424242" "12" "30" "123" "ab12" "t5"
    "DUMMY-ab12"
    { listings := [(1, demoListing), (2, demoListing2)], next_purchase_id := 7,
      purchases := [], purchase_items := [] } [1, 2]
    (by decide) (by decide)
    (by
      intro i hi
      simp only [List.mem_cons, List.not_mem_nil, or_false] at hi
      rcases hi with rfl | rfl
      · exact ⟨demoListing, by decide, by decide⟩
      · exact ⟨demoListing2, by decide, by decide⟩)
    rfl
  refine ⟨h.1, ?_, h.2.2.2.2.2⟩
  rw [h.2.1]
  decide

/-- The statement trace of a pay run takes one of four shapes,
matching the four exits of the handler. -/
theorem pay_trace_shape (ce ke de : Bool) (cn mm yy cv hex now : String)
    (db : DB) (cart : List Nat) :
    (pay ce ke de cn mm yy cv hex now db cart).trace = [] ∨
    (pay ce ke de cn mm yy cv hex now db cart).trace =
      [Event.beginTxn, Event.lockRead cart, Event.rollback] ∨
    (pay ce ke de cn mm yy cv hex now db cart).trace =
      [Event.beginTxn, Event.lockRead cart, Event.charge false, Event.rollback] ∨
    (pay ce ke de cn mm yy cv hex now db cart).trace =
      Event.beginTxn :: Event.lockRead cart :: Event.charge true ::
        Event.insertPurchase db.next_purchase_id ::
        (cart.map Event.insertPurchaseItem ++ [Event.updateSold cart, Event.commit]) := by
  unfold pay
  split_ifs with h1 h2 h3
  · exact Or.inl rfl
  · exact Or.inr (Or.inl rfl)
  · cases hch : dummy_charge de cn mm yy cv hex with
    | error e => exact Or.inr (Or.inr (Or.inl (by simp [hch])))
    | ok r => exact Or.inr (Or.inr (Or.inr (by simp [hch])))
  · exact Or.inl rfl

/-- C6: in every run of the pay handler, any durable mutation (the
purchase insert, a purchase_items insert, or the SOLD update) appears
in the statement trace strictly after a successful payment
authorization, so a decline never needs an inventory rollback. -/
theorem charge_precedes_mutation (ce ke de : Bool) (cn mm yy cv hex now : String)
    (db : DB) (cart : List Nat) (k : Nat) (e : Event)
    (he : (pay ce ke de cn mm yy cv hex now db cart).trace.get? k = some e)
    (hm : isMutation e = true) :
    ∃ j, j < k ∧
      (pay ce ke de cn mm yy cv hex now db cart).trace.get? j =
        some (Event.charge true) := by
  rcases pay_trace_shape ce ke de cn mm yy cv hex now db cart with h | h | h | h
  · rw [h] at he
    cases he
  · rw [h] at he
    match k, he with
    | 0, he => cases he; cases hm
    | 1, he => cases he; cases hm
    | 2, he => cases he; cases hm
  · rw [h] at he
    match k, he with
    | 0, he => cases he; cases hm
    | 1, he => cases he; cases hm
    | 2, he => cases he; cases hm
    | 3, he => cases he; cases hm
  · rw [h] at he ⊢
    match k, he with
    | 0, he => cases he; cases hm
    | 1, he => cases he; cases hm
    | 2, he => cases he; cases hm
    | (n + 3), he => exact ⟨2, by omega, rfl⟩

/-- Witness for C6: in a successful concrete run, the purchase insert
sits at position 3 of the trace and the accepted charge at position 2,
before it. -/
theorem charge_precedes_mutation_witness :
    (pay true true true "42424242424242 42" "12" "30" "123" "ab12" "t5"
      { listings := [(1, demoListing)], next_purchase_id := 7,
        purchases := [], purchase_items := [] } [1]).trace.get? 2 =
      some (Event.charge true) := by
  obtain ⟨j, hj, hget⟩ := charge_precedes_mutation true true true
    "42424242424242 42" "12" "30" "123" "ab12" "t5"
    { listings := [(1, demoListing)], next_purchase_id := 7,
      purchases := [], purchase_items := [] } [1] 3
    (Event.insertPurchase 7) (by decide) (by decide)
  interval_cases j
  · exact absurd hget (by decide)
  · exact absurd hget (by decide)
  · exact hget

/-! ### Helper lemmas for the interleaving model -/

theorem get?_set_self {α : Type} (l : List α) (n : Nat) (a : α) (h : n < l.length) :
    (l.set n a).get? n = some a := by
  simp [List.get?_eq_getElem?, List.getElem?_set_self', h]

theorem get?_set_other {α : Type} (l : List α) (m n : Nat) (a : α) (h : m ≠ n) :
    (l.set m a).get? n = l.get? n :=
  List.get?_set_ne a l h

theorem countP_set_same {α : Type} (l : List α) (p : Nat) (x tx : α) (pred : α → Bool)
    (hget : l.get? p = some tx) (hsame : pred x = pred tx) :
    (l.set p x).countP pred = l.countP pred := by
  induction l generalizing p with
  | nil => cases hget
  | cons a t ih =>
    cases p with
    | zero =>
        have ha : a = tx := Option.some.inj hget
        subst ha
        simp [List.countP_cons, hsame]
    | succ n =>
        have hget2 : t.get? n = some tx := hget
        simp only [List.set_cons_succ, List.countP_cons, ih n hget2]

theorem countP_set_incr {α : Type} (l : List α) (p : Nat) (x tx : α) (pred : α → Bool)
    (hget : l.get? p = some tx) (hold : pred tx = false) (hnew : pred x = true) :
    (l.set p x).countP pred = l.countP pred + 1 := by
  induction l generalizing p with
  | nil => cases hget
  | cons a t ih =>
    cases p with
    | zero =>
        have ha : a = tx := Option.some.inj hget
        subst ha
        simp [List.countP_cons, hold, hnew]
    | succ n =>
        have hget2 : t.get? n = some tx := hget
        simp only [List.set_cons_succ, List.countP_cons, ih n hget2]
        omega

theorem two_le_countP {α : Type} (l : List α) (pred : α → Bool) (p q : Nat) (tp tq : α)
    (hp : l.get? p = some tp) (hq : l.get? q = some tq) (hpq : p ≠ q)
    (h1 : pred tp = true) (h2 : pred tq = true) : 2 ≤ l.countP pred := by
  induction l generalizing p q with
  | nil => cases hp
  | cons a t ih =>
    cases p with
    | zero =>
        cases q with
        | zero => exact absurd rfl hpq
        | succ m =>
            have ha : a = tp := Option.some.inj hp
            have hmem : tq ∈ t := List.get?_mem hq
            have hpos : 0 < t.countP pred :=
              List.countP_pos_iff.mpr ⟨tq, hmem, h2⟩
            rw [List.countP_cons, ha, h1]
            simp only [if_true]
            omega
    | succ n =>
        cases q with
        | zero =>
            have ha : a = tq := Option.some.inj hq
            have hmem : tp ∈ t := List.get?_mem hp
            have hpos : 0 < t.countP pred :=
              List.countP_pos_iff.mpr ⟨tp, hmem, h1⟩
            rw [List.countP_cons, ha, h2]
            simp only [if_true]
            omega
        | succ m =>
            have := ih n m hp hq (fun h => hpq (by rw [h]))
            rw [List.countP_cons]
            omega

/-- Row lookup after the bulk SOLD update of the concurrent model. -/
theorem lookupRow_markSoldRows (L : List (Nat × Row)) (ids : List Nat) (i : Nat) :
    lookupRow (markSoldRows L ids) i =
      (lookupRow L i).map (fun r =>
        if i ∈ ids then { r with status := Status.SOLD } else r) := by
  induction L with
  | nil => rfl
  | cons p t ih =>
    rcases p with ⟨k, r⟩
    have hcons : markSoldRows ((k, r) :: t) ids =
        (if k ∈ ids then (k, { r with status := Status.SOLD })
          else (k, r)) :: markSoldRows t ids := by
      by_cases hm : k ∈ ids <;> simp [markSoldRows, hm]
    rw [hcons]
    by_cases hm : k ∈ ids
    · rw [if_pos hm]
      by_cases hki : k = i
      · subst hki
        simp [lookupRow, hm]
      · simpa [lookupRow, hki] using ih
    · rw [if_neg hm]
      by_cases hki : k = i
      · subst hki
        simp [lookupRow, hm]
      · simpa [lookupRow, hki] using ih

theorem activeRow_markSoldRows_of_not_mem (L : List (Nat × Row)) (ids : List Nat)
    (i : Nat) (h : i ∉ ids) :
    ActiveRow (markSoldRows L ids) i ↔ ActiveRow L i := by
  unfold ActiveRow
  rw [lookupRow_markSoldRows]
  cases hl : lookupRow L i with
  | none => simp
  | some r => simp [h]

theorem not_activeRow_markSoldRows_of_mem (L : List (Nat × Row)) (ids : List Nat)
    (i : Nat) (h : i ∈ ids) : ¬ ActiveRow (markSoldRows L ids) i := by
  unfold ActiveRow
  rw [lookupRow_markSoldRows]
  cases hl : lookupRow L i with
  | none => simp
  | some r =>
      rintro ⟨r2, hr2, hst⟩
      simp only [Option.map_some', h, if_pos, Option.some.injEq] at hr2
      rw [← hr2] at hst
      cases hst

theorem countsSold_eq_false_of_ne (i : Nat) (t : Txn)
    (h : t.phase ≠ Phase.finished CResult.success) : countsSold i t = false := by
  simp [countsSold, h]

theorem setPhase_get? (txns : List Txn) (t : Nat) (ph : Phase) (tx : Txn)
    (htx : txns.get? t = some tx) (p : Nat) :
    (setPhase txns t ph).get? p =
      if p = t then some { tx with phase := ph } else txns.get? p := by
  unfold setPhase
  rw [htx]
  by_cases hp : p = t
  · subst hp
    rw [if_pos rfl]
    obtain ⟨hlt, -⟩ := List.get?_eq_some.mp htx
    exact get?_set_self _ _ _ hlt
  · rw [if_neg hp]
    exact get?_set_other _ _ _ _ (fun he => hp he.symm)

theorem locksFree_spec (txns : List Txn) (ids : List Nat)
    (h : locksFree txns ids = true) :
    ∀ tq ∈ txns, ∀ i ∈ ids, holdsLock tq i = false := by
  intro tq htq i hi
  unfold locksFree at h
  rw [List.all_eq_true] at h
  have h2 := h tq htq
  rw [List.all_eq_true] at h2
  simpa using h2 i hi

theorem validateIds_spec (L : List (Nat × Row)) (ids : List Nat)
    (h : validateIds L ids = true) : ∀ i ∈ ids, ActiveRow L i := by
  intro i hi
  unfold validateIds at h
  rw [List.all_eq_true] at h
  simpa using h i hi

theorem soldCount_setPhase_same (txns : List Txn) (t : Nat) (tx : Txn) (ph : Phase)
    (htx : txns.get? t = some tx)
    (hold : tx.phase ≠ Phase.finished CResult.success)
    (hnew : ph ≠ Phase.finished CResult.success) (i : Nat) :
    soldCount (setPhase txns t ph) i = soldCount txns i := by
  unfold soldCount setPhase
  rw [htx]
  refine countP_set_same _ _ _ _ _ htx ?_
  rw [countsSold_eq_false_of_ne i _ hnew, countsSold_eq_false_of_ne i tx hold]

theorem soldCount_setPhase_success (txns : List Txn) (t : Nat) (tx : Txn)
    (htx : txns.get? t = some tx)
    (hold : tx.phase ≠ Phase.finished CResult.success) (i : Nat) :
    soldCount (setPhase txns t (Phase.finished CResult.success)) i =
      soldCount txns i + (if i ∈ tx.ids then 1 else 0) := by
  by_cases hm : i ∈ tx.ids
  · rw [if_pos hm]
    unfold soldCount setPhase
    rw [htx]
    exact countP_set_incr _ _ _ _ _ htx (countsSold_eq_false_of_ne i tx hold)
      (by simp [countsSold, hm])
  · rw [if_neg hm, Nat.add_zero]
    unfold soldCount setPhase
    rw [htx]
    refine countP_set_same _ _ _ _ _ htx ?_
    have hx : countsSold i { tx with phase := Phase.finished CResult.success } = false := by
      simp [countsSold, hm]
    rw [hx, countsSold_eq_false_of_ne i tx hold]

/-- The invariant is preserved by every step of the interleaved
system. -/
theorem cstep_preserves_inv (s s2 : CState) (hst : CStep s s2) (hinv : Inv s) :
    Inv s2 := by
  obtain ⟨J0, J1, J2, J3, J4⟩ := hinv
  cases hst with
  | acquire_fail t tx htx hph hfree hval =>
      have g := setPhase_get? s.txns t (Phase.finished CResult.itemUnavailable) tx htx
      have hsc : ∀ i, soldCount (setPhase s.txns t (Phase.finished CResult.itemUnavailable)) i =
          soldCount s.txns i :=
        fun i => soldCount_setPhase_same s.txns t tx _ htx (by simp [hph]) (by simp) i
      refine ⟨?_, ?_, ?_, ?_, ?_⟩
      · intro p q tp tq hpq hp hq i h1 h2
        rw [g p] at hp
        rw [g q] at hq
        by_cases hpt : p = t
        · rw [if_pos hpt] at hp
          rw [(Option.some.inj hp).symm] at h1
          simp [holdsLock] at h1
        · rw [if_neg hpt] at hp
          by_cases hqt : q = t
          · rw [if_pos hqt] at hq
            rw [(Option.some.inj hq).symm] at h2
            simp [holdsLock] at h2
          · rw [if_neg hqt] at hq
            exact J0 p q tp tq hpq hp hq i h1 h2
      · intro p tp snap hp hphase
        rw [g p] at hp
        by_cases hpt : p = t
        · rw [if_pos hpt] at hp
          rw [(Option.some.inj hp).symm] at hphase
          exact absurd hphase (by simp)
        · rw [if_neg hpt] at hp
          exact J1 p tp snap hp hphase
      · intro i hact
        rw [hsc i]
        exact J2 i hact
      · intro i
        rw [hsc i]
        exact J3 i
      · intro p tp hp hdecl
        rw [g p] at hp
        by_cases hpt : p = t
        · rw [if_pos hpt] at hp
          rw [(Option.some.inj hp).symm] at hdecl
          exact absurd hdecl (by simp)
        · rw [if_neg hpt] at hp
          exact J4 p tp hp hdecl
  | acquire_ok t tx htx hph hfree hval =>
      have g := setPhase_get? s.txns t
        (Phase.holding (snapshotOf s.listings tx.ids)) tx htx
      have hsc : ∀ i, soldCount (setPhase s.txns t
          (Phase.holding (snapshotOf s.listings tx.ids))) i = soldCount s.txns i :=
        fun i => soldCount_setPhase_same s.txns t tx _ htx (by simp [hph]) (by simp) i
      have hfree2 := locksFree_spec s.txns tx.ids hfree
      refine ⟨?_, ?_, ?_, ?_, ?_⟩
      · intro p q tp tq hpq hp hq i h1 h2
        rw [g p] at hp
        rw [g q] at hq
        by_cases hpt : p = t
        · rw [if_pos hpt] at hp
          rw [(Option.some.inj hp).symm] at h1
          simp only [holdsLock] at h1
          have hi : i ∈ tx.ids := by simpa using h1
          by_cases hqt : q = t
          · exact hpq (hpt.trans hqt.symm)
          · rw [if_neg hqt] at hq
            have := hfree2 tq (List.get?_mem hq) i hi
            rw [this] at h2
            cases h2
        · rw [if_neg hpt] at hp
          by_cases hqt : q = t
          · rw [if_pos hqt] at hq
            rw [(Option.some.inj hq).symm] at h2
            simp only [holdsLock] at h2
            have hi : i ∈ tx.ids := by simpa using h2
            have := hfree2 tp (List.get?_mem hp) i hi
            rw [this] at h1
            cases h1
          · rw [if_neg hqt] at hq
            exact J0 p q tp tq hpq hp hq i h1 h2
      · intro p tp snap hp hphase
        rw [g p] at hp
        by_cases hpt : p = t
        · rw [if_pos hpt] at hp
          have heq := (Option.some.inj hp).symm
          intro i hi
          rw [heq] at hi
          exact validateIds_spec s.listings tx.ids hval i hi
        · rw [if_neg hpt] at hp
          exact J1 p tp snap hp hphase
      · intro i hact
        rw [hsc i]
        exact J2 i hact
      · intro i
        rw [hsc i]
        exact J3 i
      · intro p tp hp hdecl
        rw [g p] at hp
        by_cases hpt : p = t
        · rw [if_pos hpt] at hp
          rw [(Option.some.inj hp).symm] at hdecl
          exact absurd hdecl (by simp)
        · rw [if_neg hpt] at hp
          exact J4 p tp hp hdecl
  | decline t tx snap htx hph hok =>
      have g := setPhase_get? s.txns t (Phase.finished CResult.paymentDeclined) tx htx
      have hsc : ∀ i, soldCount (setPhase s.txns t
          (Phase.finished CResult.paymentDeclined)) i = soldCount s.txns i :=
        fun i => soldCount_setPhase_same s.txns t tx _ htx (by simp [hph]) (by simp) i
      refine ⟨?_, ?_, ?_, ?_, ?_⟩
      · intro p q tp tq hpq hp hq i h1 h2
        rw [g p] at hp
        rw [g q] at hq
        by_cases hpt : p = t
        · rw [if_pos hpt] at hp
          rw [(Option.some.inj hp).symm] at h1
          simp [holdsLock] at h1
        · rw [if_neg hpt] at hp
          by_cases hqt : q = t
          · rw [if_pos hqt] at hq
            rw [(Option.some.inj hq).symm] at h2
            simp [holdsLock] at h2
          · rw [if_neg hqt] at hq
            exact J0 p q tp tq hpq hp hq i h1 h2
      · intro p tp snap2 hp hphase
        rw [g p] at hp
        by_cases hpt : p = t
        · rw [if_pos hpt] at hp
          rw [(Option.some.inj hp).symm] at hphase
          exact absurd hphase (by simp)
        · rw [if_neg hpt] at hp
          exact J1 p tp snap2 hp hphase
      · intro i hact
        rw [hsc i]
        exact J2 i hact
      · intro i
        rw [hsc i]
        exact J3 i
      · intro p tp hp hdecl
        rw [g p] at hp
        by_cases hpt : p = t
        · rw [if_pos hpt] at hp
          rw [(Option.some.inj hp).symm]
          exact hok
        · rw [if_neg hpt] at hp
          exact J4 p tp hp hdecl
  | commit t tx snap htx hph hok =>
      have g := setPhase_get? s.txns t (Phase.finished CResult.success) tx htx
      have hactive : ∀ i ∈ tx.ids, ActiveRow s.listings i := J1 t tx snap htx hph
      refine ⟨?_, ?_, ?_, ?_, ?_⟩
      · intro p q tp tq hpq hp hq i h1 h2
        rw [g p] at hp
        rw [g q] at hq
        by_cases hpt : p = t
        · rw [if_pos hpt] at hp
          rw [(Option.some.inj hp).symm] at h1
          simp [holdsLock] at h1
        · rw [if_neg hpt] at hp
          by_cases hqt : q = t
          · rw [if_pos hqt] at hq
            rw [(Option.some.inj hq).symm] at h2
            simp [holdsLock] at h2
          · rw [if_neg hqt] at hq
            exact J0 p q tp tq hpq hp hq i h1 h2
      · intro p tp snap2 hp hphase
        rw [g p] at hp
        by_cases hpt : p = t
        · rw [if_pos hpt] at hp
          rw [(Option.some.inj hp).symm] at hphase
          exact absurd hphase (by simp)
        · rw [if_neg hpt] at hp
          intro i hi
          have hrow := J1 p tp snap2 hp hphase i hi
          have hdisj : i ∉ tx.ids := by
            intro hmem
            exact J0 p t tp tx hpt hp htx i
              (by simp [holdsLock, hphase, hi])
              (by simp [holdsLock, hph, hmem])
          exact (activeRow_markSoldRows_of_not_mem s.listings tx.ids i hdisj).mpr hrow
      · intro i hact
        by_cases hm : i ∈ tx.ids
        · exact absurd hact (not_activeRow_markSoldRows_of_mem s.listings tx.ids i hm)
        · have hact0 : ActiveRow s.listings i :=
            (activeRow_markSoldRows_of_not_mem s.listings tx.ids i hm).mp hact
          rw [soldCount_setPhase_success s.txns t tx htx (by simp [hph]) i,
            if_neg hm, Nat.add_zero]
          exact J2 i hact0
      · intro i
        rw [soldCount_setPhase_success s.txns t tx htx (by simp [hph]) i]
        by_cases hm : i ∈ tx.ids
        · rw [if_pos hm]
          have h0 : soldCount s.txns i = 0 := J2 i (hactive i hm)
          omega
        · rw [if_neg hm]
          have := J3 i
          omega
      · intro p tp hp hdecl
        rw [g p] at hp
        by_cases hpt : p = t
        · rw [if_pos hpt] at hp
          rw [(Option.some.inj hp).symm] at hdecl
          exact absurd hdecl (by simp)
        · rw [if_neg hpt] at hp
          exact J4 p tp hp hdecl

/-- The invariant holds in any state where no attempt has started. -/
theorem inv_of_allPending (s : CState) (h0 : AllPending s) : Inv s := by
  have hz : ∀ i, soldCount s.txns i = 0 := by
    intro i
    unfold soldCount
    rw [List.countP_eq_zero]
    intro tx htx
    rw [countsSold_eq_false_of_ne i tx (by simp [h0 tx htx])]
    simp
  refine ⟨?_, ?_, fun i _ => hz i, fun i => by rw [hz i]; omega, ?_⟩
  · intro p q tp tq hpq hp hq i h1 h2
    have := h0 tp (List.get?_mem hp)
    simp [holdsLock, this] at h1
  · intro p tp snap hp hphase
    have := h0 tp (List.get?_mem hp)
    rw [this] at hphase
    cases hphase
  · intro p tp hp hdecl
    have := h0 tp (List.get?_mem hp)
    rw [this] at hdecl
    cases hdecl

/-- The invariant holds in every state reachable from an all-pending
initial state. -/
theorem reaches_inv (s0 s : CState) (h0 : AllPending s0) (hr : Reaches s0 s) :
    Inv s := by
  induction hr with
  | refl => exact inv_of_allPending s0 h0
  | tail hr2 hstep ih => exact cstep_preserves_inv _ _ hstep ih

/-- C1: in every interleaving of arbitrarily many concurrent purchase
attempts under the FOR UPDATE row-lock discipline, two distinct
attempts sharing an item id never both succeed — no item is sold
twice — and when one of them has succeeded, the other, if it finishes
at all with an accepted card, finishes with ItemUnavailable. -/
theorem no_double_sale (s0 s : CState) (h0 : AllPending s0) (hr : Reaches s0 s)
    (p q : Nat) (tp tq : Txn) (hpq : p ≠ q)
    (hp : s.txns.get? p = some tp) (hq : s.txns.get? q = some tq)
    (i : Nat) (hip : i ∈ tp.ids) (hiq : i ∈ tq.ids)
    (hps : tp.phase = Phase.finished CResult.success) :
    tq.phase ≠ Phase.finished CResult.success ∧
    (tq.okPayment = true → ∀ r, tq.phase = Phase.finished r →
      r = CResult.itemUnavailable) := by
  obtain ⟨J0, J1, J2, J3, J4⟩ := reaches_inv s0 s h0 hr
  have hns : tq.phase ≠ Phase.finished CResult.success := by
    intro hqs
    have h2 : 2 ≤ soldCount s.txns i :=
      two_le_countP s.txns (countsSold i) p q tp tq hp hq hpq
        (by simp [countsSold, hps, hip]) (by simp [countsSold, hqs, hiq])
    have h3 := J3 i
    unfold soldCount at h3 h2
    omega
  refine ⟨hns, fun hok r hfin => ?_⟩
  cases r with
  | success => exact absurd hfin hns
  | itemUnavailable => rfl
  | paymentDeclined =>
      have := J4 q tq hq hfin
      rw [hok] at this
      cases this

/-- Witness for C1: a concrete two-buyer race on listing 1 in which
buyer 0 acquires, commits and wins while buyer 1 then observes the row
SOLD; the theorem yields that buyer 1 did not succeed and finished
with ItemUnavailable. -/
theorem no_double_sale_witness :
    decide (cLoser.phase = Phase.finished CResult.success) = false ∧
    cLoser.phase = Phase.finished CResult.itemUnavailable := by
  have h1 : CStep cInitState cState1 :=
    CStep.acquire_ok cInitState 0 cTxn rfl rfl (by decide) (by decide)
  have h2 : CStep cState1 cState2 :=
    CStep.commit cState1 0 cHolding [(1, 100)] rfl rfl rfl
  have h3 : CStep cState2 cState3 :=
    CStep.acquire_fail cState2 1 cTxn rfl rfl (by decide) (by decide)
  have hreach : Reaches cInitState cState3 :=
    Relation.ReflTransGen.tail
      (Relation.ReflTransGen.tail (Relation.ReflTransGen.single h1) h2) h3
  have h := no_double_sale cInitState cState3
    (by unfold AllPending; decide)
    hreach 0 1 cWinner cLoser
    (by decide) rfl rfl 1 (by decide) (by decide) rfl
  exact ⟨decide_eq_false h.1, rfl⟩

end Marketplace
